import Mathlib

/-!
Verification development for the ResQYou emergency-alert backend.

The definitions below are a shallow embedding of the JavaScript source:

* `src/controllers/sosController.js` — `sendSOS`, `cancelSOS`, `resolveSOS`
  (the current revision of the controller, the one that exports `resolveSOS`);
* `src/models/sosModel.js` — the alert document shape and its indexes;
* `src/config/constants.js` — `SOS.MAX_LOCATION_HISTORY = 50`, status strings;
* `src/controllers/messageController.js` — `getOrCreateConversation`,
  `markMessagesAsRead`, `archiveConversation`;
* `src/models/messageModel.js` — conversation/message shapes and indexes;
* `src/server.js` — the Socket.IO `join` and `join-admin` handlers.

The MongoDB store is modelled as an insertion-ordered list of documents with
atomic single-document writes: `findOne`/`findById` return the first matching
document, and `save`/`findByIdAndUpdate` rewrite the first document matched by
the same query.  Timestamps (`new Date()`) are supplied by the caller as
natural numbers, and the reverse-geocoding gateway (which never throws: any
failure becomes the fallback string) is an explicit function argument.
JavaScript numbers appearing as coordinates are modelled as rationals, and a
request-body field that may be absent is a `JSVal` so that JavaScript
truthiness (`!latitude`) is represented exactly.
-/

/-- A JavaScript value as it can arrive in a JSON request body field:
`undefined` (field absent), a number, or a string. -/
inductive JSVal
  | undef
  | num (q : ℚ)
  | strVal (s : String)
deriving DecidableEq

/-- JavaScript truthiness of a `JSVal`: `undefined`, `0` and `""` are falsy. -/
def JSVal.truthy : JSVal → Bool
  | .undef => false
  | .num q => q != 0
  | .strVal s => s != ""

/-- Alert status, from the `status` enum of `sosModel.js` /
`SOS.STATUS` in `constants.js`. -/
inductive SOSStatus
  | active
  | resolved
  | cancelled
deriving DecidableEq

/-- The string stored in the `status` field for each status value. -/
def statusToString : SOSStatus → String
  | .active => "active"
  | .resolved => "resolved"
  | .cancelled => "cancelled"

/-- One `locationHistory` entry: `{ latitude, longitude, timestamp, address }`
(the optional `accuracy` field is never written by the controller). -/
structure LocEntry where
  latitude : ℚ
  longitude : ℚ
  timestamp : ℕ
  address : String
deriving DecidableEq

/-- An SOS document, after `sosModel.js`.  `location` is the derived GeoJSON
point `[longitude, latitude]`.  `id` stands for Mongo `_id`. -/
structure SOSAlert where
  id : ℕ
  username : String
  fullname : String
  userId : Option ℕ
  latitude : ℚ
  longitude : ℚ
  coordinates : List ℚ
  address : String
  status : SOSStatus
  timestamp : ℕ
  resolvedAt : Option ℕ
  cancelledAt : Option ℕ
  locationHistory : List LocEntry
  lastUpdated : ℕ
deriving DecidableEq

/-- A user record, the part of `userModel.js` the SOS controller reads. -/
structure UserRec where
  id : ℕ
  username : String
  fullname : String
deriving DecidableEq

/-- HTTP responses as produced through `responseHelper.js`:
`sendCreated`, `sendOk`, `sendBadRequest`, `sendNotFound`. -/
inductive Resp
  | created (msg : String)
  | ok (msg : String)
  | badRequest (msg : String)
  | notFound (msg : String)
deriving DecidableEq

/-- Is the response a success (2xx)? -/
def Resp.isSuccess : Resp → Bool
  | .created _ => true
  | .ok _ => true
  | _ => false

/-- JavaScript `array.slice(-n)`: the last `n` elements (all of them when the
array is shorter). -/
def lastN (n : ℕ) (l : List α) : List α := l.drop (l.length - n)

/-- Rewrite the first document matched by the predicate — the model of
mutating the document a `findOne` returned and calling `save()` on it. -/
def replaceFirst (p : α → Bool) (f : α → α) : List α → List α
  | [] => []
  | x :: xs => if p x then f x :: xs else x :: replaceFirst p f xs

/-- `SOS.MAX_LOCATION_HISTORY` from `constants.js`. -/
def maxLocationHistory : ℕ := 50

/-- The query `{ username, status: 'active' }` used by `findOne` in
`sendSOS` and `cancelSOS`. -/
def isActiveFor (u : String) (a : SOSAlert) : Bool :=
  a.username == u && a.status == SOSStatus.active

/-- Append a history entry and, when the array then exceeds
`MAX_LOCATION_HISTORY`, keep only the last 50 (`slice(-50)`), exactly as
`sendSOS` does after `locationHistory.push`. -/
def pushHistory (h : List LocEntry) (e : LocEntry) : List LocEntry :=
  let h' := h ++ [e]
  if h'.length > maxLocationHistory then lastN maxLocationHistory h' else h'

/-- The in-place update `sendSOS` performs on an existing active alert:
position, GeoJSON point, address, fullname, `lastUpdated`, history append. -/
def updateAlert (lat lon : ℚ) (address fullname : String) (now : ℕ)
    (a : SOSAlert) : SOSAlert :=
  { a with
    latitude := lat
    longitude := lon
    coordinates := [lon, lat]
    address := address
    fullname := fullname
    lastUpdated := now
    locationHistory := pushHistory a.locationHistory ⟨lat, lon, now, address⟩ }

/-- The fresh document `new SOS({...})` built by `sendSOS` when no active
alert exists for the owner. -/
def newAlert (id : ℕ) (username fullname : String) (userId : Option ℕ)
    (lat lon : ℚ) (address : String) (now : ℕ) : SOSAlert :=
  { id := id
    username := username
    fullname := fullname
    userId := userId
    latitude := lat
    longitude := lon
    coordinates := [lon, lat]
    address := address
    status := .active
    timestamp := now
    resolvedAt := none
    cancelledAt := none
    locationHistory := [⟨lat, lon, now, address⟩]
    lastUpdated := now }

/-- A `sendSOS` request: the authenticated identity (`req.user.username`) and
the body fields.  The body `username` is a string (falsy iff empty); the
coordinates are arbitrary JSON values so the truthiness and `typeof` checks
are modelled faithfully. -/
structure SendReq where
  authUsername : String
  username : String
  latitude : JSVal
  longitude : JSVal
deriving DecidableEq

/-- `const fullname = user?.fullname || username` after the lazy user
lookup in `sendSOS`: the username is the display-name fallback. -/
def resolvedFullname (users : List UserRec) (username : String) : String :=
  match users.find? (fun u => u.username == username) with
  | some u => u.fullname
  | none => username

/-- `const userId = user?._id || null` in `sendSOS`: a null owner id when
the owner record is unresolvable. -/
def resolvedUserId (users : List UserRec) (username : String) : Option ℕ :=
  match users.find? (fun u => u.username == username) with
  | some u => some u.id
  | none => none

/-- `sendSOS` (sosController.js).  In source order: the truthiness check on
the three fields, the `typeof` number check, the coordinate range check, the
IDOR check, the lazy user lookup (a missing user record only downgrades
`fullname`/`userId`, it does not fail), reverse geocoding, then
update-in-place of the existing active alert or creation of a new one.
Returns the response together with the new store and the next fresh id. -/
def sendSOS (users : List UserRec) (geocode : ℚ → ℚ → String) (now : ℕ)
    (req : SendReq) (store : List SOSAlert) (nextId : ℕ) :
    Resp × List SOSAlert × ℕ :=
  if req.username == "" || !req.latitude.truthy || !req.longitude.truthy then
    (.badRequest "Username, latitude, and longitude are required", store, nextId)
  else
    match req.latitude, req.longitude with
    | .num lat, .num lon =>
      if lat < -90 || lat > 90 || lon < -180 || lon > 180 then
        (.badRequest "Invalid coordinate values", store, nextId)
      else if req.authUsername != req.username then
        (.badRequest "You can only send SOS for your own account", store, nextId)
      else
        match store.find? (isActiveFor req.username) with
        | some _ =>
          (.ok "SOS location updated successfully",
           replaceFirst (isActiveFor req.username)
             (updateAlert lat lon (geocode lat lon)
               (resolvedFullname users req.username) now) store,
           nextId)
        | none =>
          (.created "SOS sent successfully",
           store ++ [newAlert nextId req.username (resolvedFullname users req.username)
             (resolvedUserId users req.username) lat lon (geocode lat lon) now],
           nextId + 1)
    | _, _ => (.badRequest "Latitude and longitude must be numbers", store, nextId)

/-- `cancelSOS` (sosController.js): username presence, IDOR check, lookup of
the active alert (NotFound when absent), then `status := 'cancelled'` and
`cancelledAt := new Date()`. -/
def cancelSOS (authUsername username : String) (now : ℕ)
    (store : List SOSAlert) : Resp × List SOSAlert :=
  if username == "" then
    (.badRequest "Username is required", store)
  else if authUsername != username then
    (.badRequest "You can only cancel your own SOS", store)
  else
    match store.find? (isActiveFor username) with
    | none => (.notFound "No active SOS found", store)
    | some _ =>
      (.ok "SOS cancelled successfully",
       replaceFirst (isActiveFor username)
         (fun a => { a with status := .cancelled, cancelledAt := some now }) store)

/-- `resolveSOS` (sosController.js): `findById` (NotFound when the id does
not exist), the already-terminal rejection whose message states the current
status — the Conflict of the design taxonomy — then `status := 'resolved'`
and `resolvedAt := new Date()`. -/
def resolveSOS (sosId : ℕ) (now : ℕ) (store : List SOSAlert) :
    Resp × List SOSAlert :=
  match store.find? (fun a => a.id == sosId) with
  | none => (.notFound "SOS not found", store)
  | some a =>
    if a.status != SOSStatus.active then
      (.badRequest ("SOS is already " ++ statusToString a.status), store)
    else
      (.ok "SOS marked as resolved successfully",
       replaceFirst (fun b => b.id == sosId)
         (fun b => { b with status := .resolved, resolvedAt := some now }) store)

/-- One alert-lifecycle operation, as dispatched by `sosRouter.js`. -/
inductive SOSOp
  | send (req : SendReq) (now : ℕ)
  | cancel (authUsername username : String) (now : ℕ)
  | resolve (sosId : ℕ) (now : ℕ)

/-- Apply one operation to the store (the response is discarded; the store
and the fresh-id counter thread through). -/
def stepSOS (users : List UserRec) (geocode : ℚ → ℚ → String)
    (st : List SOSAlert × ℕ) : SOSOp → List SOSAlert × ℕ
  | .send req now => (sendSOS users geocode now req st.1 st.2).2
  | .cancel au u now => ((cancelSOS au u now st.1).2, st.2)
  | .resolve i now => ((resolveSOS i now st.1).2, st.2)

/-- Run a sequence of operations from the empty store. -/
def runSOS (users : List UserRec) (geocode : ℚ → ℚ → String)
    (ops : List SOSOp) : List SOSAlert × ℕ :=
  ops.foldl (stepSOS users geocode) ([], 0)

/-- Number of alerts with `status = active` stored for an owner. -/
def countActive (u : String) (store : List SOSAlert) : ℕ :=
  (store.filter (isActiveFor u)).length

/-- Geocoder stub used in concrete scenarios: every lookup resolves to the
same address string. -/
def demoGeocode : ℚ → ℚ → String := fun _ _ => "addr"

/-- The i-th raise request of the 60-raise scenario: owner `alice`, fixed
latitude 7, longitude `i+1`. -/
def aliceRaise (i : ℕ) : SendReq :=
  ⟨"alice", "alice", .num 7, .num (Rat.ofInt (i + 1))⟩

/-- The history entry the i-th raise of the scenario stores. -/
def aliceEntry (i : ℕ) : LocEntry :=
  ⟨7, Rat.ofInt (i + 1), i + 1, "addr"⟩

/-- Sixty successive raises by `alice` at time `i+1` for `i < 60`. -/
def sixtyRaises : List SOSOp :=
  (List.range 60).map (fun i => .send (aliceRaise i) (i + 1))

/-- The alert created by the first raise of the scenarios below. -/
def aliceAlert1 : SOSAlert := newAlert 0 "alice" "alice" none 7 8 "addr" 1

/-- A sample already-resolved alert (for instantiating the resolve claims). -/
def sampleResolved : SOSAlert :=
  { id := 0
    username := "alice"
    fullname := "Alice"
    userId := some 1
    latitude := 7
    longitude := 8
    coordinates := [8, 7]
    address := "addr"
    status := .resolved
    timestamp := 1
    resolvedAt := some 2
    cancelledAt := none
    locationHistory := [⟨7, 8, 1, "addr"⟩]
    lastUpdated := 2 }

/-- Conversation status, from the `status` enum of `conversationSchema` /
`CONVERSATION.STATUS` in `constants.js`. -/
inductive ConvStatus
  | active
  | archived
deriving DecidableEq

/-- A conversation document, after `conversationSchema` in `messageModel.js`
(defaults: `adminId`/`adminName`/`sosId` null, counters 0, status active). -/
structure Conversation where
  id : ℕ
  userId : ℕ
  userName : String
  adminId : Option ℕ
  adminName : Option String
  lastMessage : String
  lastMessageTime : ℕ
  unreadCountUser : ℕ
  unreadCountAdmin : ℕ
  status : ConvStatus
  sosId : Option ℕ
deriving DecidableEq

/-- A message document, after `messageSchema` in `messageModel.js` (the
media fields are not involved in the operations modelled here). -/
structure MsgDoc where
  id : ℕ
  conversationId : ℕ
  senderType : String
  senderId : ℕ
  senderModel : String
  messageType : String
  text : String
  isRead : Bool
deriving DecidableEq

/-- An admin record, the part of `adminModel.js` the message controller
reads and writes. -/
structure AdminRec where
  id : ℕ
  username : String
  fullname : String
deriving DecidableEq

/-- The portion of the database the message controller touches, with the
fresh-id counters of each collection. -/
structure MsgState where
  convs : List Conversation
  msgs : List MsgDoc
  admins : List AdminRec
  nextConvId : ℕ
  nextMsgId : ℕ
  nextAdminId : ℕ
deriving DecidableEq

/-- Message-controller responses (`res.status(200).json(conversation)`,
`sendOk`, `sendBadRequest`, `sendNotFound`). -/
inductive MResp
  | okConv (c : Conversation)
  | okText (msg : String)
  | badRequest (msg : String)
  | notFound (msg : String)
deriving DecidableEq

/-- A declared schema index: the indexed key paths and whether the index
carries a uniqueness constraint. -/
structure MongoIndex where
  keys : List String
  unique : Bool
deriving DecidableEq

/-- The three indexes declared on `conversationSchema`
(`messageModel.js` lines 116–118).  `schema.index(spec)` without an options
object declares a plain, non-unique index, so all three have
`unique := false`. -/
def conversationIndexes : List MongoIndex :=
  [⟨["userId", "status"], false⟩,
   ⟨["adminId", "status"], false⟩,
   ⟨["lastMessageTime"], false⟩]

/-- `MESSAGE.PREVIEW_LENGTH` from `constants.js`. -/
def previewLength : ℕ := 100

/-- `MESSAGE.SENDER_TYPES` from `constants.js`. -/
def senderTypes : List String := ["user", "admin"]

/-- JavaScript `s.substring(0, n)` for the ASCII-dominated strings used here
(modelled character-wise). -/
def jsSubstringTo (s : String) (n : ℕ) : String := ⟨s.data.take n⟩

/-- The system welcome message `getOrCreateConversation` seeds a fresh
conversation with. -/
def welcomeText (fullname : String) : String :=
  "Hi " ++ fullname ++ "! 👋\n\nYou\u0027re now connected to ResqYOU Emergency Respondents. This is a direct line for emergency assistance and urgent support.\n\nIf you need immediate help or have an emergency situation, please let us know right away. Our response team is here to assist you 24/7."

/-- The lookup filter `{ userId, ...(adminId && { adminId }) }` of
`getOrCreateConversation`: the `adminId` clause is spread in only when the
body supplied a (truthy) adminId.  Note the filter has no `status` clause. -/
def convQuery (uid : ℕ) (adminId : Option ℕ) (c : Conversation) : Bool :=
  c.userId == uid &&
    (match adminId with
     | none => true
     | some aid => c.adminId == some aid)

/-- The tail of the create path of `getOrCreateConversation`: find or create
the `resqyou_system` admin, create the conversation, create the welcome
message, and store the conversation with its welcome preview and
`unreadCountUser = 1`.  The conversation is appended with the field values
it holds once the handler finishes (create followed by the in-handler save
collapses into one atomic append; no other request observes the
intermediate document in this model). -/
def getOrCreateFinish (uid : ℕ) (adminId : Option ℕ) (adminName : Option String)
    (user : UserRec) (now : ℕ) (st : MsgState) : MResp × MsgState :=
  let sysFound := st.admins.find? (fun a => a.username == "resqyou_system")
  let sysAdmin := match sysFound with
    | some a => a
    | none => ⟨st.nextAdminId, "resqyou_system", "ResqYOU Respondents"⟩
  let admins' := match sysFound with
    | some _ => st.admins
    | none => st.admins ++ [sysAdmin]
  let nextAdminId' := match sysFound with
    | some _ => st.nextAdminId
    | none => st.nextAdminId + 1
  let welcome := welcomeText user.fullname
  let conv : Conversation :=
    { id := st.nextConvId
      userId := uid
      userName := user.fullname
      adminId := adminId
      adminName := adminName
      lastMessage := jsSubstringTo welcome previewLength
      lastMessageTime := now
      unreadCountUser := 1
      unreadCountAdmin := 0
      status := .active
      sosId := none }
  let msg : MsgDoc :=
    { id := st.nextMsgId
      conversationId := st.nextConvId
      senderType := "admin"
      senderId := sysAdmin.id
      senderModel := "Admin"
      messageType := "text"
      text := welcome
      isRead := false }
  (.okConv conv,
   { convs := st.convs ++ [conv]
     msgs := st.msgs ++ [msg]
     admins := admins'
     nextConvId := st.nextConvId + 1
     nextMsgId := st.nextMsgId + 1
     nextAdminId := nextAdminId' })

/-- The create path of `getOrCreateConversation`, entered after the lookup
missed: resolve the user (404 when absent), resolve the admin when an
adminId was supplied (404 when absent), then create. -/
def getOrCreateCreate (users : List UserRec) (uid : ℕ) (adminId : Option ℕ)
    (now : ℕ) (st : MsgState) : MResp × MsgState :=
  match users.find? (fun u => u.id == uid) with
  | none => (.notFound "User not found", st)
  | some user =>
    match adminId with
    | none => getOrCreateFinish uid none none user now st
    | some aid =>
      match st.admins.find? (fun a => a.id == aid) with
      | none => (.notFound "Admin not found", st)
      | some ad => getOrCreateFinish uid (some aid) (some ad.fullname) user now st

/-- `getOrCreateConversation` (messageController.js): body `userId` falls
back to the authenticated user, then the status-less lookup by
`{ userId, ...(adminId && { adminId }) }` returns any matching conversation
unchanged; only on a miss is the create path run. -/
def getOrCreateConversation (users : List UserRec)
    (bodyUserId reqUserId adminId : Option ℕ) (now : ℕ) (st : MsgState) :
    MResp × MsgState :=
  let userId? := match bodyUserId with
    | some u => some u
    | none => reqUserId
  match userId? with
  | none => (.badRequest "User ID is required", st)
  | some uid =>
    match st.convs.find? (convQuery uid adminId) with
    | some c => (.okConv c, st)
    | none => getOrCreateCreate users uid adminId now st

/-- Iterate `getOrCreateConversation` (discarding responses). -/
def iterGetOrCreate (users : List UserRec)
    (bodyUserId reqUserId adminId : Option ℕ) (now : ℕ) :
    ℕ → MsgState → MsgState
  | 0, st => st
  | n + 1, st =>
    iterGetOrCreate users bodyUserId reqUserId adminId now n
      (getOrCreateConversation users bodyUserId reqUserId adminId now st).2

/-- Two concurrent first-contact calls interleaved at the lookup/create
boundary: both callers run the `findOne` lookup against the same state
(the theorems require both to miss), then each runs the create path in turn.
The interleaving respects per-document atomicity — each create only inserts
fresh documents — and there is no cross-document transaction in the code. -/
def raceTwoCreates (users : List UserRec) (uid : ℕ) (now₁ now₂ : ℕ)
    (st : MsgState) : (MResp × MResp) × MsgState :=
  let r₁ := getOrCreateCreate users uid none now₁ st
  let r₂ := getOrCreateCreate users uid none now₂ r₁.2
  ((r₁.1, r₂.1), r₂.2)

/-- The user list and empty initial state of the conversation scenarios. -/
def demoUsers : List UserRec := [⟨1, "alice", "Alice Smith"⟩]

/-- The empty message-controller state. -/
def msgState0 : MsgState := ⟨[], [], [], 0, 0, 0⟩

/-- `readerType === 'user' ? 'admin' : 'user'` in `markMessagesAsRead`. -/
def oppositeSenderType (readerType : String) : String :=
  if readerType == "user" then "admin" else "user"

/-- The per-message rewrite of `Message.updateMany({conversationId,
senderType: opposite, isRead: false}, {isRead: true})`: exactly the unread
messages of the opposite role in this conversation get `isRead := true`. -/
def markReadMsg (convId : ℕ) (opposite : String) (m : MsgDoc) : MsgDoc :=
  if m.conversationId == convId && m.senderType == opposite && !m.isRead then
    { m with isRead := true }
  else m

/-- The counter update of `markMessagesAsRead`: the reader's own unread
counter is set to zero, the other side's counter is not mentioned. -/
def readZero (readerType : String) (c : Conversation) : Conversation :=
  if readerType == "user" then { c with unreadCountUser := 0 }
  else { c with unreadCountAdmin := 0 }

/-- `markMessagesAsRead` (messageController.js): reader-type validation,
conversation lookup (404 when absent), `updateMany` flipping the unread
messages of the opposite role, then `findByIdAndUpdate` zeroing the
reader's counter. -/
def markMessagesAsRead (convId : ℕ) (readerType : String) (st : MsgState) :
    MResp × MsgState :=
  if !(senderTypes.contains readerType) then
    (.badRequest "Invalid reader type", st)
  else
    match st.convs.find? (fun c => c.id == convId) with
    | none => (.notFound "Conversation not found", st)
    | some _ =>
      (.okText "Messages marked as read",
       { st with
         msgs := st.msgs.map (markReadMsg convId (oppositeSenderType readerType))
         convs := replaceFirst (fun c => c.id == convId) (readZero readerType)
           st.convs })

/-- `archiveConversation` (messageController.js): `findByIdAndUpdate` to
`status: 'archived'`, 404 when the conversation does not exist. -/
def archiveConversation (convId : ℕ) (st : MsgState) : MResp × MsgState :=
  match st.convs.find? (fun c => c.id == convId) with
  | none => (.notFound "Conversation not found", st)
  | some c =>
    (.okConv { c with status := .archived },
     { st with
       convs := replaceFirst (fun d => d.id == convId)
         (fun d => { d with status := .archived }) st.convs })

/-- The authenticated state of a live Socket.IO connection after the
`io.use` token middleware (`server.js`): the decoded token fields and the
rooms the socket has joined. -/
structure SocketSt where
  userId : String
  username : String
  tokenType : String
  rooms : List String
deriving DecidableEq

/-- JavaScript `s.startsWith(p)` (character-wise, as used on room ids). -/
def jsStartsWith (s p : String) : Bool :=
  s.data.take p.data.length == p.data

/-- JavaScript `s.substring(n)` (character-wise, as used on room ids). -/
def jsSubstrFrom (s : String) (n : ℕ) : String := ⟨s.data.drop n⟩

/-- The `socket.on('join')` handler (`server.js` lines 65–93).  Username
rooms (`user-<name>`) and raw-id rooms are both self-only unless the token
is an admin token; a failed check only logs and returns — the handler has no
callback and emits nothing, so nothing reaches the requester. -/
def joinHandler (s : SocketSt) (roomId : String) : SocketSt :=
  if jsStartsWith roomId "user-" then
    let requested := jsSubstrFrom roomId 5
    if s.username != requested && s.tokenType != "admin" then s
    else { s with rooms := s.rooms ++ [roomId] }
  else
    if s.userId != roomId && s.tokenType != "admin" then s
    else { s with rooms := s.rooms ++ [roomId] }

/-- The acknowledgment `socket.on('join-admin')` sends through its callback. -/
inductive JoinAck
  | failure (msg : String)
  | success (msg : String)
deriving DecidableEq

/-- The `socket.on('join-admin')` handler (`server.js` lines 95–128): the
token must be an admin token, the requested personal room must be the
caller's own id; on success the socket joins `admin-room` and its personal
room. -/
def joinAdminHandler (s : SocketSt) (adminId : String) : SocketSt × JoinAck :=
  if s.tokenType != "admin" then
    (s, .failure "Unauthorized: Admin access required")
  else if s.userId != adminId then
    (s, .failure "Unauthorized: Cannot join another admin\u0027s room")
  else
    ({ s with rooms := s.rooms ++ ["admin-room", adminId] },
     .success "Joined admin room successfully")

/-- A sample conversation for instantiating the markRead claims. -/
def demoConv : Conversation :=
  { id := 0
    userId := 1
    userName := "Alice Smith"
    adminId := some 4
    adminName := some "Op"
    lastMessage := "hello"
    lastMessageTime := 3
    unreadCountUser := 2
    unreadCountAdmin := 3
    status := .active
    sosId := none }

/-- A sample unread admin message in `demoConv`. -/
def demoMsg : MsgDoc :=
  { id := 0
    conversationId := 0
    senderType := "admin"
    senderId := 4
    senderModel := "Admin"
    messageType := "text"
    text := "hello"
    isRead := false }

/-- A message-store state holding `demoConv` and `demoMsg`. -/
def demoMsgState : MsgState := ⟨[demoConv], [demoMsg], [], 1, 1, 0⟩

/-- The state after `alice` opens her first conversation. -/
def convAfterCreate : MsgState :=
  (getOrCreateConversation demoUsers (some 1) none none 3 msgState0).2

/-- The single conversation `convAfterCreate` holds. -/
def createdConv : Conversation :=
  convAfterCreate.convs.headD
    ⟨0, 0, "", none, none, "", 0, 0, 0, .active, none⟩

/-- `createdConv` once archived. -/
def archivedConv : Conversation := { createdConv with status := .archived }

/-- The state after an operator archives `alice`: her only conversation is
archived. -/
def convAfterArchive : MsgState := (archiveConversation 0 convAfterCreate).2


/-- Decomposition of `replaceFirst` at the document `find?` returns: the
store splits around the first match, and the rewrite touches exactly that
document. -/
theorem replaceFirst_decomp (p : α → Bool) (f : α → α) (l : List α) (a : α)
    (h : l.find? p = some a) :
    ∃ l₁ l₂, l = l₁ ++ a :: l₂ ∧ (∀ x ∈ l₁, p x = false) ∧ p a = true ∧
      replaceFirst p f l = l₁ ++ f a :: l₂ := by
  induction l with
  | nil => simp [List.find?] at h
  | cons x xs ih =>
    by_cases hp : p x
    · rw [List.find?_cons_of_pos _ hp] at h
      obtain rfl : x = a := by injection h
      exact ⟨[], xs, rfl, by simp, hp, by simp [replaceFirst, hp]⟩
    · rw [List.find?_cons_of_neg _ hp] at h
      obtain ⟨l₁, l₂, hl, h₁, hpa, hr⟩ := ih h
      refine ⟨x :: l₁, l₂, by simp [hl], ?_, hpa, ?_⟩
      · intro y hy
        rcases List.mem_cons.mp hy with rfl | hy'
        · simpa using hp
        · exact h₁ _ hy'
      · simp [replaceFirst, hp, hr]

theorem countActive_append (u : String) (l₁ l₂ : List SOSAlert) :
    countActive u (l₁ ++ l₂) = countActive u l₁ + countActive u l₂ := by
  simp [countActive, List.filter_append]

theorem countActive_cons (u : String) (x : SOSAlert) (l : List SOSAlert) :
    countActive u (x :: l) =
      (if isActiveFor u x then 1 else 0) + countActive u l := by
  simp only [countActive, List.filter_cons]
  split <;> simp [Nat.add_comm]

theorem countActive_eq_zero (u : String) (store : List SOSAlert)
    (h : store.find? (isActiveFor u) = none) : countActive u store = 0 := by
  have h' := List.find?_eq_none.mp h
  have : store.filter (isActiveFor u) = [] := by
    rw [List.filter_eq_nil_iff]
    exact h'
  simp [countActive, this]

/-- Status-dependent terminal-timestamp discipline of a single alert:
`resolvedAt` and `cancelledAt` are mutually exclusive, each set exactly when
the corresponding terminal status has been reached. -/
def timestampsOk (a : SOSAlert) : Prop :=
  (a.status = .active → a.resolvedAt = none ∧ a.cancelledAt = none) ∧
  (a.status = .cancelled → a.cancelledAt ≠ none ∧ a.resolvedAt = none) ∧
  (a.status = .resolved → a.resolvedAt ≠ none ∧ a.cancelledAt = none)

/-- The store invariant maintained by the alert lifecycle: at most one
active alert per owner, ids below the fresh-id counter, and the per-alert
timestamp discipline. -/
def goodStore (store : List SOSAlert) (nextId : ℕ) : Prop :=
  (∀ u, countActive u store ≤ 1) ∧
  (∀ a ∈ store, a.id < nextId) ∧
  (∀ a ∈ store, timestampsOk a)

theorem isActiveFor_updateAlert (u : String) (lat lon : ℚ) (ad fn : String)
    (now : ℕ) (a : SOSAlert) :
    isActiveFor u (updateAlert lat lon ad fn now a) = isActiveFor u a := by
  simp [isActiveFor, updateAlert]

theorem isActiveFor_newAlert (u : String) (i : ℕ) (un fn : String)
    (uid : Option ℕ) (lat lon : ℚ) (ad : String) (now : ℕ) :
    isActiveFor u (newAlert i un fn uid lat lon ad now) = (un == u) := by
  simp [isActiveFor, newAlert]

theorem sendSOS_good (users : List UserRec) (geocode : ℚ → ℚ → String)
    (now : ℕ) (req : SendReq) (store : List SOSAlert) (nextId : ℕ)
    (h : goodStore store nextId) :
    goodStore (sendSOS users geocode now req store nextId).2.1
      (sendSOS users geocode now req store nextId).2.2 := by
  obtain ⟨hcnt, hid, hts⟩ := h
  unfold sendSOS
  split
  · exact ⟨hcnt, hid, hts⟩
  · split
    · split
      · exact ⟨hcnt, hid, hts⟩
      · split
        · exact ⟨hcnt, hid, hts⟩
        · split
          next a hfind =>
            obtain ⟨l₁, l₂, hl, -, -, hr⟩ :=
              replaceFirst_decomp (isActiveFor req.username)
                (updateAlert _ _ _ _ now) store a hfind
            subst hl
            rw [hr]
            refine ⟨?_, ?_, ?_⟩
            · intro u
              have hc := hcnt u
              rw [countActive_append, countActive_cons] at hc ⊢
              rw [isActiveFor_updateAlert]
              exact hc
            · intro b hb
              rcases List.mem_append.mp hb with hb | hb
              · exact hid b (List.mem_append.mpr (.inl hb))
              · rcases List.mem_cons.mp hb with rfl | hb
                · simpa [updateAlert] using
                    hid a (List.mem_append.mpr (.inr (List.mem_cons_self _ _)))
                · exact hid b (List.mem_append.mpr (.inr (List.mem_cons_of_mem _ hb)))
            · intro b hb
              rcases List.mem_append.mp hb with hb | hb
              · exact hts b (List.mem_append.mpr (.inl hb))
              · rcases List.mem_cons.mp hb with rfl | hb
                · have := hts a (List.mem_append.mpr (.inr (List.mem_cons_self _ _)))
                  simpa [updateAlert, timestampsOk] using this
                · exact hts b (List.mem_append.mpr (.inr (List.mem_cons_of_mem _ hb)))
          next hfind =>
            refine ⟨?_, ?_, ?_⟩
            · intro u
              rw [countActive_append, countActive_cons]
              by_cases hu : u = req.username
              · subst hu
                have h0 := countActive_eq_zero req.username store hfind
                rw [h0]
                split <;> simp [countActive]
              · rw [isActiveFor_newAlert]
                have hne : (req.username == u) = false := by
                  simp only [beq_eq_false_iff_ne, ne_eq]
                  exact fun hc => hu hc.symm
                rw [hne]
                simpa [countActive] using hcnt u
            · intro b hb
              rcases List.mem_append.mp hb with hb | hb
              · exact Nat.lt_succ_of_lt (hid b hb)
              · rcases List.mem_cons.mp hb with rfl | hb
                · simp [newAlert]
                · simp at hb
            · intro b hb
              rcases List.mem_append.mp hb with hb | hb
              · exact hts b hb
              · rcases List.mem_cons.mp hb with rfl | hb
                · simp [newAlert, timestampsOk]
                · simp at hb
    · exact ⟨hcnt, hid, hts⟩

theorem isActiveFor_eq_true {u : String} {a : SOSAlert}
    (h : isActiveFor u a = true) :
    a.username = u ∧ a.status = SOSStatus.active := by
  simpa [isActiveFor] using h

theorem cancelSOS_good (au u : String) (now : ℕ) (store : List SOSAlert)
    (nextId : ℕ) (h : goodStore store nextId) :
    goodStore (cancelSOS au u now store).2 nextId := by
  obtain ⟨hcnt, hid, hts⟩ := h
  unfold cancelSOS
  split
  · exact ⟨hcnt, hid, hts⟩
  · split
    · exact ⟨hcnt, hid, hts⟩
    · split
      next hfind => exact ⟨hcnt, hid, hts⟩
      next a hfind =>
        obtain ⟨l₁, l₂, hl, -, hpa, hr⟩ :=
          replaceFirst_decomp (isActiveFor u)
            (fun a => { a with status := .cancelled, cancelledAt := some now })
            store a hfind
        subst hl
        rw [hr]
        obtain ⟨-, hact⟩ := isActiveFor_eq_true hpa
        have hres : a.resolvedAt = none :=
          ((hts a (List.mem_append.mpr (.inr (List.mem_cons_self _ _)))).1 hact).1
        refine ⟨?_, ?_, ?_⟩
        · intro u'
          have hc := hcnt u'
          rw [countActive_append, countActive_cons] at hc ⊢
          have hfa : isActiveFor u'
              { a with status := SOSStatus.cancelled, cancelledAt := some now } = false := by
            simp [isActiveFor]
          rw [hfa]
          simp only [Bool.false_eq_true, if_false]
          split at hc <;> omega
        · intro b hb
          rcases List.mem_append.mp hb with hb | hb
          · exact hid b (List.mem_append.mpr (.inl hb))
          · rcases List.mem_cons.mp hb with rfl | hb
            · exact hid a (List.mem_append.mpr (.inr (List.mem_cons_self _ _)))
            · exact hid b (List.mem_append.mpr (.inr (List.mem_cons_of_mem _ hb)))
        · intro b hb
          rcases List.mem_append.mp hb with hb | hb
          · exact hts b (List.mem_append.mpr (.inl hb))
          · rcases List.mem_cons.mp hb with rfl | hb
            · refine ⟨by simp, fun _ => ⟨by simp, by simpa using hres⟩, by simp⟩
            · exact hts b (List.mem_append.mpr (.inr (List.mem_cons_of_mem _ hb)))

theorem resolveSOS_good (sosId now : ℕ) (store : List SOSAlert)
    (nextId : ℕ) (h : goodStore store nextId) :
    goodStore (resolveSOS sosId now store).2 nextId := by
  obtain ⟨hcnt, hid, hts⟩ := h
  unfold resolveSOS
  split
  next hfind => exact ⟨hcnt, hid, hts⟩
  next a hfind =>
    split
    · exact ⟨hcnt, hid, hts⟩
    next hact' =>
      have hact : a.status = SOSStatus.active := by
        simpa using hact'
      obtain ⟨l₁, l₂, hl, -, hpa, hr⟩ :=
        replaceFirst_decomp (fun b => b.id == sosId)
          (fun b => { b with status := .resolved, resolvedAt := some now })
          store a hfind
      subst hl
      rw [hr]
      have hcanc : a.cancelledAt = none :=
        ((hts a (List.mem_append.mpr (.inr (List.mem_cons_self _ _)))).1 hact).2
      refine ⟨?_, ?_, ?_⟩
      · intro u'
        have hc := hcnt u'
        rw [countActive_append, countActive_cons] at hc ⊢
        have hfa : isActiveFor u'
            { a with status := SOSStatus.resolved, resolvedAt := some now } = false := by
          simp [isActiveFor]
        rw [hfa]
        simp only [Bool.false_eq_true, if_false]
        split at hc <;> omega
      · intro b hb
        rcases List.mem_append.mp hb with hb | hb
        · exact hid b (List.mem_append.mpr (.inl hb))
        · rcases List.mem_cons.mp hb with rfl | hb
          · exact hid a (List.mem_append.mpr (.inr (List.mem_cons_self _ _)))
          · exact hid b (List.mem_append.mpr (.inr (List.mem_cons_of_mem _ hb)))
      · intro b hb
        rcases List.mem_append.mp hb with hb | hb
        · exact hts b (List.mem_append.mpr (.inl hb))
        · rcases List.mem_cons.mp hb with rfl | hb
          · refine ⟨by simp, by simp, fun _ => ⟨by simp, by simpa using hcanc⟩⟩
          · exact hts b (List.mem_append.mpr (.inr (List.mem_cons_of_mem _ hb)))

theorem stepSOS_good (users : List UserRec) (geocode : ℚ → ℚ → String)
    (st : List SOSAlert × ℕ) (op : SOSOp) (h : goodStore st.1 st.2) :
    goodStore (stepSOS users geocode st op).1 (stepSOS users geocode st op).2 := by
  cases op with
  | send req now => exact sendSOS_good users geocode now req st.1 st.2 h
  | cancel au u now => exact cancelSOS_good au u now st.1 st.2 h
  | resolve i now => exact resolveSOS_good i now st.1 st.2 h

theorem foldl_stepSOS_good (users : List UserRec) (geocode : ℚ → ℚ → String)
    (ops : List SOSOp) :
    ∀ st : List SOSAlert × ℕ, goodStore st.1 st.2 →
      goodStore (ops.foldl (stepSOS users geocode) st).1
        (ops.foldl (stepSOS users geocode) st).2 := by
  induction ops with
  | nil => intro st h; simpa using h
  | cons op ops ih =>
    intro st h
    simpa [List.foldl_cons] using ih _ (stepSOS_good users geocode st op h)

/-- Every store reachable by running operations from the empty store
satisfies the invariant. -/
theorem runSOS_good (users : List UserRec) (geocode : ℚ → ℚ → String)
    (ops : List SOSOp) :
    goodStore (runSOS users geocode ops).1 (runSOS users geocode ops).2 := by
  refine foldl_stepSOS_good users geocode ops ([], 0) ⟨?_, ?_, ?_⟩
  · intro u; simp [countActive]
  · intro a ha; simp at ha
  · intro a ha; simp at ha

theorem mem_replaceFirst {p : α → Bool} {f : α → α} {l : List α} {b : α}
    (hb : b ∈ replaceFirst p f l) :
    b ∈ l ∨ ∃ a ∈ l, p a = true ∧ b = f a := by
  induction l with
  | nil => simp [replaceFirst] at hb
  | cons x xs ih =>
    by_cases hp : p x
    · simp only [replaceFirst, if_pos hp] at hb
      rcases List.mem_cons.mp hb with rfl | hb
      · exact .inr ⟨x, List.mem_cons_self _ _, hp, rfl⟩
      · exact .inl (List.mem_cons_of_mem _ hb)
    · simp only [replaceFirst, if_neg hp] at hb
      rcases List.mem_cons.mp hb with rfl | hb
      · exact .inl (List.mem_cons_self _ _)
      · rcases ih hb with h | ⟨a, ha, hpa, rfl⟩
        · exact .inl (List.mem_cons_of_mem _ h)
        · exact .inr ⟨a, List.mem_cons_of_mem _ ha, hpa, rfl⟩

/-- Every document in the store after a `sendSOS` is an old document, an
in-place update of an old document, or the freshly created alert. -/
theorem mem_sendSOS (users : List UserRec) (geocode : ℚ → ℚ → String)
    (now : ℕ) (req : SendReq) (store : List SOSAlert) (nextId : ℕ) (b : SOSAlert)
    (hb : b ∈ (sendSOS users geocode now req store nextId).2.1) :
    b ∈ store ∨
    (∃ a ∈ store, ∃ lat lon, b = updateAlert lat lon (geocode lat lon)
        (resolvedFullname users req.username) now a) ∨
    (∃ lat lon, b = newAlert nextId req.username (resolvedFullname users req.username)
        (resolvedUserId users req.username) lat lon (geocode lat lon) now) := by
  unfold sendSOS at hb
  split at hb
  · exact .inl hb
  · split at hb
    · split at hb
      · exact .inl hb
      · split at hb
        · exact .inl hb
        · split at hb
          next a hfind =>
            rcases mem_replaceFirst hb with h | ⟨c, hc, -, rfl⟩
            · exact .inl h
            · exact .inr (.inl ⟨c, hc, _, _, rfl⟩)
          next hfind =>
            rcases List.mem_append.mp hb with h | h
            · exact .inl h
            · rcases List.mem_cons.mp h with rfl | h
              · exact .inr (.inr ⟨_, _, rfl⟩)
              · simp at h
    · exact .inl hb

/-- Every document after a `cancelSOS` is an old document or the
cancellation update of an old document. -/
theorem mem_cancelSOS (au u : String) (now : ℕ) (store : List SOSAlert)
    (b : SOSAlert) (hb : b ∈ (cancelSOS au u now store).2) :
    b ∈ store ∨ ∃ a ∈ store,
      b = { a with status := SOSStatus.cancelled, cancelledAt := some now } := by
  unfold cancelSOS at hb
  split at hb
  · exact .inl hb
  · split at hb
    · exact .inl hb
    · split at hb
      · exact .inl hb
      · rcases mem_replaceFirst hb with h | ⟨c, hc, -, rfl⟩
        · exact .inl h
        · exact .inr ⟨c, hc, rfl⟩

/-- Every document after a `resolveSOS` is an old document or the
resolution update of an old document. -/
theorem mem_resolveSOS (sosId now : ℕ) (store : List SOSAlert)
    (b : SOSAlert) (hb : b ∈ (resolveSOS sosId now store).2) :
    b ∈ store ∨ ∃ a ∈ store,
      b = { a with status := SOSStatus.resolved, resolvedAt := some now } := by
  unfold resolveSOS at hb
  split at hb
  · exact .inl hb
  · split at hb
    · exact .inl hb
    · rcases mem_replaceFirst hb with h | ⟨c, hc, -, rfl⟩
      · exact .inl h
      · exact .inr ⟨c, hc, rfl⟩

theorem pushHistory_length (h : List LocEntry) (e : LocEntry) :
    (pushHistory h e).length = min (h.length + 1) maxLocationHistory := by
  unfold pushHistory lastN
  simp only []
  split
  next hgt => simp at hgt ⊢; omega
  next hgt => simp at hgt ⊢; omega

/-- The location-history cap is preserved by every operation: any alert in
a reachable store carries at most 50 history entries. -/
theorem runSOS_histLen (users : List UserRec) (geocode : ℚ → ℚ → String)
    (ops : List SOSOp) :
    ∀ a ∈ (runSOS users geocode ops).1,
      a.locationHistory.length ≤ maxLocationHistory := by
  suffices h : ∀ st : List SOSAlert × ℕ,
      (∀ a ∈ st.1, a.locationHistory.length ≤ maxLocationHistory) →
      ∀ a ∈ (ops.foldl (stepSOS users geocode) st).1,
        a.locationHistory.length ≤ maxLocationHistory by
    refine h ([], 0) ?_
    intro a ha
    simp at ha
  induction ops with
  | nil => intro st h; simpa using h
  | cons op ops ih =>
    intro st h
    refine ih _ ?_
    intro b hb
    cases op with
    | send req now =>
      rcases mem_sendSOS users geocode now req st.1 st.2 b hb with
        hmem | ⟨a, ha, lat, lon, rfl⟩ | ⟨lat, lon, rfl⟩
      · exact h b hmem
      · have hc := pushHistory_length a.locationHistory
          ⟨lat, lon, now, geocode lat lon⟩
        have hla := h a ha
        simp only [updateAlert]
        omega
      · simp [newAlert, maxLocationHistory]
    | cancel au u now =>
      rcases mem_cancelSOS au u now st.1 b hb with hmem | ⟨a, ha, rfl⟩
      · exact h b hmem
      · simpa using h a ha
    | resolve i now =>
      rcases mem_resolveSOS i now st.1 b hb with hmem | ⟨a, ha, rfl⟩
      · exact h b hmem
      · simpa using h a ha

/-- `sendSOS` either leaves the stored ids unchanged (all rejection branches
and the update-in-place branch) or — exactly when no active alert exists for
the owner — appends one brand-new active alert with a fresh id. -/
theorem sendSOS_id_dichotomy (users : List UserRec) (geocode : ℚ → ℚ → String)
    (now : ℕ) (req : SendReq) (store : List SOSAlert) (nextId : ℕ)
    (hgood : goodStore store nextId) :
    (sendSOS users geocode now req store nextId).2.1.map SOSAlert.id
        = store.map SOSAlert.id ∨
      (store.find? (isActiveFor req.username) = none ∧
       ∃ a, (sendSOS users geocode now req store nextId).2.1 = store ++ [a] ∧
         a.username = req.username ∧ a.status = SOSStatus.active ∧
         ∀ b ∈ store, b.id ≠ a.id) := by
  unfold sendSOS
  split
  · exact .inl rfl
  · split
    · split
      · exact .inl rfl
      · split
        · exact .inl rfl
        · split
          next a hfind =>
            left
            obtain ⟨l₁, l₂, hl, -, -, hr⟩ :=
              replaceFirst_decomp (isActiveFor req.username)
                (updateAlert _ _ _ _ now) store a hfind
            subst hl
            rw [hr]
            simp [updateAlert]
          next hfind =>
            right
            refine ⟨hfind, ?_⟩
            refine ⟨_, rfl, by simp [newAlert], by simp [newAlert], ?_⟩
            intro b hb
            have hlt := hgood.2.1 b hb
            simp only [newAlert]
            omega
    · exact .inl rfl

theorem find?_append_cons (p : α → Bool) (l₁ : List α) (y : α) (l₂ : List α)
    (h : ∀ x ∈ l₁, p x = false) (hy : p y = true) :
    (l₁ ++ y :: l₂).find? p = some y := by
  induction l₁ with
  | nil => simp [List.find?_cons_of_pos _ hy]
  | cons x xs ih =>
    have hx : p x = false := h x (List.mem_cons_self _ _)
    simp only [List.cons_append]
    rw [List.find?_cons_of_neg _ (by simp [hx])]
    exact ih (fun z hz => h z (List.mem_cons_of_mem _ hz))

theorem replaceFirst_append_cons (p : α → Bool) (f : α → α) (l₁ : List α)
    (y : α) (l₂ : List α) (h : ∀ x ∈ l₁, p x = false) (hy : p y = true) :
    replaceFirst p f (l₁ ++ y :: l₂) = l₁ ++ f y :: l₂ := by
  induction l₁ with
  | nil => simp [replaceFirst, hy]
  | cons x xs ih =>
    have hx : p x = false := h x (List.mem_cons_self _ _)
    simp only [List.cons_append, replaceFirst, hx, Bool.false_eq_true, if_false,
      List.cons.injEq, true_and]
    exact ih (fun z hz => h z (List.mem_cons_of_mem _ hz))

/-- C1: for every owner and every sequence of raise (`sendSOS`), cancel
(`cancelSOS`) and resolve (`resolveSOS`) operations run from the empty
store, the store holds at most one alert with status active for that owner;
moreover a further raise on the reachable store either keeps the stored ids
exactly unchanged (the update-in-place path and every rejection path — no
second record is ever created for an owner with an active alert) or, exactly
when the owner has no active alert (first signal, or after a terminal
state), appends one brand-new active alert under a fresh id. -/
theorem C1_at_most_one_active_alert_per_owner (users : List UserRec)
    (geocode : ℚ → ℚ → String) (ops : List SOSOp) (u : String)
    (req : SendReq) (now : ℕ) :
    countActive u (runSOS users geocode ops).1 ≤ 1 ∧
    ((sendSOS users geocode now req (runSOS users geocode ops).1
          (runSOS users geocode ops).2).2.1.map SOSAlert.id
        = (runSOS users geocode ops).1.map SOSAlert.id ∨
      ((runSOS users geocode ops).1.find? (isActiveFor req.username) = none ∧
       ∃ a, (sendSOS users geocode now req (runSOS users geocode ops).1
              (runSOS users geocode ops).2).2.1
            = (runSOS users geocode ops).1 ++ [a] ∧
         a.username = req.username ∧ a.status = SOSStatus.active ∧
         ∀ b ∈ (runSOS users geocode ops).1, b.id ≠ a.id)) :=
  ⟨(runSOS_good users geocode ops).1 u,
   sendSOS_id_dichotomy users geocode now req _ _ (runSOS_good users geocode ops)⟩

set_option maxRecDepth 10000

/-- C3: in every reachable store each alert's locationHistory holds at most
50 entries (append-then-truncate, oldest dropped first), and the concrete
scenario of 60 successive raises by one owner yields exactly one alert whose
history equals exactly the most recent 50 of the 60 entries in chronological
order — hence has length 50. -/
theorem C3_location_history_sliding_window (users : List UserRec)
    (geocode : ℚ → ℚ → String) (ops : List SOSOp) :
    (∀ a ∈ (runSOS users geocode ops).1, a.locationHistory.length ≤ 50) ∧
    (runSOS [] demoGeocode sixtyRaises).1.map SOSAlert.locationHistory
        = [((List.range 60).map aliceEntry).drop 10] ∧
    (((List.range 60).map aliceEntry).drop 10).length = 50 :=
  ⟨fun a ha => runSOS_histLen users geocode ops a ha,
   by decide, by decide⟩

/-- C4: `resolveSOS` returns NotFound when the id does not exist and leaves
the store unchanged; on an alert whose status is not active it returns the
conflict response whose message states the current status and leaves the
store unchanged (in particular `resolvedAt` keeps its value); only on an
active alert does it set status resolved and stamp `resolvedAt`. -/
theorem C4_resolve_error_handling (store : List SOSAlert) (sosId now : ℕ) :
    (store.find? (fun a => a.id == sosId) = none →
      resolveSOS sosId now store = (.notFound "SOS not found", store)) ∧
    (∀ a, store.find? (fun a => a.id == sosId) = some a →
      a.status ≠ SOSStatus.active →
      resolveSOS sosId now store =
        (.badRequest ("SOS is already " ++ statusToString a.status), store)) ∧
    (∀ a, store.find? (fun a => a.id == sosId) = some a →
      a.status = SOSStatus.active →
      ∃ l₁ l₂, store = l₁ ++ a :: l₂ ∧
        resolveSOS sosId now store =
          (.ok "SOS marked as resolved successfully",
           l₁ ++ { a with status := SOSStatus.resolved,
                          resolvedAt := some now } :: l₂)) := by
  refine ⟨?_, ?_, ?_⟩
  · intro h
    unfold resolveSOS
    rw [h]
  · intro a hfind hact
    unfold resolveSOS
    rw [hfind]
    simp only [if_pos (show (a.status != SOSStatus.active) = true by simpa using hact)]
  · intro a hfind hact
    obtain ⟨l₁, l₂, hl, -, -, hr⟩ :=
      replaceFirst_decomp (fun b => b.id == sosId)
        (fun b => { b with status := .resolved, resolvedAt := some now })
        store a hfind
    refine ⟨l₁, l₂, hl, ?_⟩
    unfold resolveSOS
    simp only [hfind]
    rw [if_neg (show ¬((a.status != SOSStatus.active) = true) by simp [hact]), hr]

/-- Witness for C4 at concrete inputs: resolving an unknown id is NotFound,
and resolving an already-resolved alert returns the conflict message naming
the current status with the store — hence `resolvedAt` — unchanged. -/
theorem C4_resolve_error_handling_witness :
    resolveSOS 1 5 [sampleResolved] =
      (Resp.notFound "SOS not found", [sampleResolved]) ∧
    resolveSOS 0 5 [sampleResolved] =
      (Resp.badRequest ("SOS is already " ++ statusToString SOSStatus.resolved),
       [sampleResolved]) :=
  ⟨(C4_resolve_error_handling [sampleResolved] 1 5).1 (by decide),
   (C4_resolve_error_handling [sampleResolved] 0 5).2.1 sampleResolved
     (by decide) (by decide)⟩

/-- C9: any raise whose latitude or longitude is the number 0 is rejected by
the truthiness presence check with the missing-required-fields message, and
the store is unchanged — no alert is created or updated. -/
theorem C9_zero_coordinate_rejected (users : List UserRec)
    (geocode : ℚ → ℚ → String) (now : ℕ) (req : SendReq)
    (store : List SOSAlert) (nextId : ℕ)
    (h : req.latitude = JSVal.num 0 ∨ req.longitude = JSVal.num 0) :
    sendSOS users geocode now req store nextId =
      (.badRequest "Username, latitude, and longitude are required",
       store, nextId) := by
  unfold sendSOS
  rcases h with h | h
  · rw [if_pos (by rw [h]; simp [JSVal.truthy])]
  · rw [if_pos (by rw [h]; simp [JSVal.truthy])]

/-- Witness for C9: a raise at the equator-crossing longitude 120 with
latitude 0 is rejected as missing fields and nothing is stored. -/
theorem C9_zero_coordinate_rejected_witness :
    sendSOS [] demoGeocode 1 ⟨"alice", "alice", JSVal.num 0, JSVal.num 120⟩ [] 0 =
      (Resp.badRequest "Username, latitude, and longitude are required", [], 0) :=
  C9_zero_coordinate_rejected [] demoGeocode 1 _ [] 0 (.inl rfl)

/-- C6: a raise that passes validation but names a username with no user
record still succeeds — it is not rejected with NotFound; and when the owner
has no active alert it creates the alert with a null `userId` and the
username itself as the stored display name. -/
theorem C6_raise_never_blocks_on_missing_user (users : List UserRec)
    (geocode : ℚ → ℚ → String) (now : ℕ) (req : SendReq)
    (store : List SOSAlert) (nextId : ℕ) (lat lon : ℚ)
    (hlat : req.latitude = JSVal.num lat) (hlon : req.longitude = JSVal.num lon)
    (hlat0 : lat ≠ 0) (hlon0 : lon ≠ 0)
    (hlat1 : -90 ≤ lat) (hlat2 : lat ≤ 90)
    (hlon1 : -180 ≤ lon) (hlon2 : lon ≤ 180)
    (hname : req.username ≠ "") (hauth : req.authUsername = req.username)
    (hnouser : users.find? (fun u => u.username == req.username) = none) :
    (sendSOS users geocode now req store nextId).1.isSuccess = true ∧
    (∀ m, (sendSOS users geocode now req store nextId).1 ≠ Resp.notFound m) ∧
    (store.find? (isActiveFor req.username) = none →
      (sendSOS users geocode now req store nextId).2.1 =
        store ++ [newAlert nextId req.username req.username none lat lon
          (geocode lat lon) now]) := by
  have hfn : resolvedFullname users req.username = req.username := by
    unfold resolvedFullname
    rw [hnouser]
  have huid : resolvedUserId users req.username = none := by
    unfold resolvedUserId
    rw [hnouser]
  have hcond1 : (req.username == "" || !req.latitude.truthy
      || !req.longitude.truthy) = false := by
    rw [hlat, hlon]
    simp [JSVal.truthy, hname, hlat0, hlon0]
  have hcond2 : (decide (lat < -90) || decide (lat > 90)
      || decide (lon < -180) || decide (lon > 180)) = false := by
    simp only [Bool.or_eq_false_iff, decide_eq_false_iff_not, not_lt]
    exact ⟨⟨⟨hlat1, hlat2⟩, hlon1⟩, hlon2⟩
  have hcond3 : (req.authUsername != req.username) = false := by
    simp [hauth]
  unfold sendSOS
  rw [hcond1]
  simp only [Bool.false_eq_true, if_false, hlat, hlon, hcond2, hcond3, hfn, huid]
  cases hfind : store.find? (isActiveFor req.username) with
  | some c =>
    refine ⟨rfl, by simp, ?_⟩
    intro habs
    exact absurd habs (by simp)
  | none =>
    exact ⟨rfl, by simp, fun _ => rfl⟩

/-- Witness for C6: with an empty user collection, a valid raise by `bob`
succeeds and stores a single alert with `userId = none` and fullname
`bob`. -/
theorem C6_raise_never_blocks_on_missing_user_witness :
    (sendSOS [] demoGeocode 1 ⟨"bob", "bob", JSVal.num 7, JSVal.num 8⟩ [] 0).1.isSuccess
      = true ∧
    (sendSOS [] demoGeocode 1 ⟨"bob", "bob", JSVal.num 7, JSVal.num 8⟩ [] 0).2.1 =
      [newAlert 0 "bob" "bob" none 7 8 (demoGeocode 7 8) 1] := by
  have h := C6_raise_never_blocks_on_missing_user [] demoGeocode 1
    ⟨"bob", "bob", JSVal.num 7, JSVal.num 8⟩ [] 0 7 8 rfl rfl
    (by decide) (by decide) (by decide) (by decide) (by decide) (by decide)
    (by decide) rfl (by decide)
  exact ⟨h.1, by simpa using h.2.2 (by decide)⟩

/-- C5: cancelling an owner's active alert (on any reachable store) returns
success and rewrites exactly that alert to status cancelled with
`cancelledAt` stamped to the cancellation time while `resolvedAt` stays
unset; and in every reachable store the terminal timestamps are mutually
exclusive — every cancelled alert has `cancelledAt` set and `resolvedAt`
unset. -/
theorem C5_cancel_stamps_cancelledAt (users : List UserRec)
    (geocode : ℚ → ℚ → String) (ops : List SOSOp) (au u : String) (now : ℕ)
    (a : SOSAlert)
    (hfind : (runSOS users geocode ops).1.find? (isActiveFor u) = some a)
    (hau : au = u) (hne : u ≠ "") :
    (cancelSOS au u now (runSOS users geocode ops).1).1 =
      Resp.ok "SOS cancelled successfully" ∧
    (∃ l₁ l₂, (runSOS users geocode ops).1 = l₁ ++ a :: l₂ ∧
      (cancelSOS au u now (runSOS users geocode ops).1).2 =
        l₁ ++ { a with status := SOSStatus.cancelled,
                       cancelledAt := some now } :: l₂) ∧
    a.resolvedAt = none ∧
    (∀ ops' : List SOSOp, ∀ b ∈ (runSOS users geocode ops').1,
      b.status = SOSStatus.cancelled → b.cancelledAt ≠ none ∧ b.resolvedAt = none) := by
  have hgood := runSOS_good users geocode ops
  have hmem := List.mem_of_find?_eq_some hfind
  have hp := List.find?_some hfind
  obtain ⟨-, hact⟩ := isActiveFor_eq_true hp
  have hres : a.resolvedAt = none := ((hgood.2.2 a hmem).1 hact).1
  obtain ⟨l₁, l₂, hl, -, -, hr⟩ :=
    replaceFirst_decomp (isActiveFor u)
      (fun a => { a with status := .cancelled, cancelledAt := some now })
      (runSOS users geocode ops).1 a hfind
  have hcancel : cancelSOS au u now (runSOS users geocode ops).1 =
      (Resp.ok "SOS cancelled successfully",
       replaceFirst (isActiveFor u)
         (fun a => { a with status := .cancelled, cancelledAt := some now })
         (runSOS users geocode ops).1) := by
    unfold cancelSOS
    rw [if_neg (by simp [hne]), if_neg (by simp [hau])]
    simp only [hfind]
  refine ⟨by rw [hcancel], ⟨l₁, l₂, hl, by rw [hcancel]; exact hr⟩, hres, ?_⟩
  intro ops' b hb hbc
  exact (((runSOS_good users geocode ops').2.2 b hb).2.1) hbc

/-- Witness for C5: `alice` raises once, then cancels; the cancel succeeds
and the stored alert is cancelled with `cancelledAt = 2` and `resolvedAt`
unset. -/
theorem C5_cancel_stamps_cancelledAt_witness :
    (cancelSOS "alice" "alice" 2
        (runSOS [] demoGeocode [SOSOp.send ⟨"alice", "alice", JSVal.num 7,
          JSVal.num 8⟩ 1]).1).1 = Resp.ok "SOS cancelled successfully" ∧
    aliceAlert1.resolvedAt = none := by
  have h := C5_cancel_stamps_cancelledAt [] demoGeocode
    [SOSOp.send ⟨"alice", "alice", JSVal.num 7, JSVal.num 8⟩ 1]
    "alice" "alice" 2 aliceAlert1 (by decide) rfl (by decide)
  exact ⟨h.1, h.2.2.1⟩

theorem markReadMsg_fields (convId : ℕ) (opposite : String) (m : MsgDoc) :
    (markReadMsg convId opposite m).isRead =
      (m.isRead || (m.conversationId == convId && m.senderType == opposite)) ∧
    (markReadMsg convId opposite m).conversationId = m.conversationId ∧
    (markReadMsg convId opposite m).senderType = m.senderType ∧
    (markReadMsg convId opposite m).senderId = m.senderId ∧
    (markReadMsg convId opposite m).text = m.text ∧
    (markReadMsg convId opposite m).id = m.id ∧
    (markReadMsg convId opposite m).messageType = m.messageType ∧
    (markReadMsg convId opposite m).senderModel = m.senderModel := by
  unfold markReadMsg
  cases hm : m.isRead <;> cases h1 : m.conversationId == convId <;>
    cases h2 : m.senderType == opposite <;> simp [hm, h1, h2]

theorem markReadMsg_idem (convId : ℕ) (opposite : String) (m : MsgDoc) :
    markReadMsg convId opposite (markReadMsg convId opposite m) =
      markReadMsg convId opposite m := by
  unfold markReadMsg
  cases hm : m.isRead <;> cases h1 : m.conversationId == convId <;>
    cases h2 : m.senderType == opposite <;> simp [hm, h1, h2]

theorem readZero_id (readerType : String) (c : Conversation) :
    (readZero readerType c).id = c.id := by
  unfold readZero
  split <;> rfl

theorem readZero_idem (readerType : String) (c : Conversation) :
    readZero readerType (readZero readerType c) = readZero readerType c := by
  unfold readZero
  split <;> rfl

theorem markMessagesAsRead_eq (st : MsgState) (convId : ℕ)
    (readerType : String) (c : Conversation)
    (hval : senderTypes.contains readerType = true)
    (hfind : st.convs.find? (fun d => d.id == convId) = some c) :
    markMessagesAsRead convId readerType st =
      (.okText "Messages marked as read",
       { st with
         msgs := st.msgs.map (markReadMsg convId (oppositeSenderType readerType))
         convs := replaceFirst (fun d => d.id == convId) (readZero readerType)
           st.convs }) := by
  unfold markMessagesAsRead
  rw [hval]
  simp only [Bool.not_true, Bool.false_eq_true, if_false, hfind]

/-- C8: on a conversation that exists, `markMessagesAsRead` succeeds and
(a) flips `isRead` to true on exactly the unread messages sent by the
opposite role in that conversation, changing no other message field;
(b) rewrites exactly the looked-up conversation, zeroing the reader's own
unread counter — for reader `user`, `unreadCountUser` becomes 0 while
`unreadCountAdmin` is untouched, and symmetrically for `admin`; and
(c) is idempotent: applying it to the resulting state returns the very same
response and state. -/
theorem C8_markRead_counters_idempotent (st : MsgState) (convId : ℕ)
    (readerType : String) (c : Conversation)
    (hreader : readerType = "user" ∨ readerType = "admin")
    (hfind : st.convs.find? (fun d => d.id == convId) = some c) :
    (markMessagesAsRead convId readerType st).1 =
      MResp.okText "Messages marked as read" ∧
    (∀ i : ℕ, ∀ m, st.msgs[i]? = some m →
      ∃ m', (markMessagesAsRead convId readerType st).2.msgs[i]? = some m' ∧
        m'.isRead = (m.isRead || (m.conversationId == convId
          && m.senderType == oppositeSenderType readerType)) ∧
        m'.conversationId = m.conversationId ∧ m'.senderType = m.senderType ∧
        m'.senderId = m.senderId ∧ m'.text = m.text ∧
        m'.id = m.id ∧ m'.messageType = m.messageType ∧
        m'.senderModel = m.senderModel) ∧
    (∃ l₁ l₂, st.convs = l₁ ++ c :: l₂ ∧
      (markMessagesAsRead convId readerType st).2.convs =
        l₁ ++ readZero readerType c :: l₂) ∧
    (readerType = "user" →
      (readZero readerType c).unreadCountUser = 0 ∧
      (readZero readerType c).unreadCountAdmin = c.unreadCountAdmin) ∧
    (readerType = "admin" →
      (readZero readerType c).unreadCountAdmin = 0 ∧
      (readZero readerType c).unreadCountUser = c.unreadCountUser) ∧
    markMessagesAsRead convId readerType
        (markMessagesAsRead convId readerType st).2 =
      markMessagesAsRead convId readerType st := by
  have hval : senderTypes.contains readerType = true := by
    rcases hreader with rfl | rfl <;> decide
  obtain ⟨l₁, l₂, hl, hl₁, hpc, hr⟩ :=
    replaceFirst_decomp (fun d => d.id == convId) (readZero readerType)
      st.convs c hfind
  have heq := markMessagesAsRead_eq st convId readerType c hval hfind
  refine ⟨by rw [heq], ?_, ⟨l₁, l₂, hl, by rw [heq]; exact hr⟩, ?_, ?_, ?_⟩
  · intro i m hm
    refine ⟨markReadMsg convId (oppositeSenderType readerType) m, ?_, ?_⟩
    · rw [heq]
      simp only [List.getElem?_map, hm]
      rfl
    · exact markReadMsg_fields convId (oppositeSenderType readerType) m
  · intro hu
    subst hu
    exact ⟨by simp [readZero], by simp [readZero]⟩
  · intro hu
    subst hu
    exact ⟨by simp [readZero], by simp [readZero]⟩
  · have hfind1 : (markMessagesAsRead convId readerType st).2.convs.find?
        (fun d => d.id == convId) = some (readZero readerType c) := by
      rw [heq]
      simp only []
      rw [hr]
      exact find?_append_cons _ l₁ _ l₂ hl₁ (by rw [readZero_id]; exact hpc)
    have heq2 := markMessagesAsRead_eq (markMessagesAsRead convId readerType st).2
      convId readerType (readZero readerType c) hval hfind1
    rw [heq2, heq]
    simp only [Prod.mk.injEq, MsgState.mk.injEq, true_and, and_true]
    refine ⟨?_, ?_⟩
    · rw [hr, replaceFirst_append_cons _ _ l₁ _ l₂ hl₁
        (by rw [readZero_id]; exact hpc), readZero_idem]
    · rw [List.map_map]
      exact List.map_congr_left
        (fun m _ => markReadMsg_idem convId (oppositeSenderType readerType) m)

/-- Witness for C8 at a concrete state: marking as reader `user` succeeds,
zeroes `unreadCountUser`, keeps `unreadCountAdmin`, and a second application
changes nothing. -/
theorem C8_markRead_counters_idempotent_witness :
    (markMessagesAsRead 0 "user" demoMsgState).1 =
      MResp.okText "Messages marked as read" ∧
    (readZero "user" demoConv).unreadCountUser = 0 ∧
    (readZero "user" demoConv).unreadCountAdmin = demoConv.unreadCountAdmin ∧
    markMessagesAsRead 0 "user" (markMessagesAsRead 0 "user" demoMsgState).2 =
      markMessagesAsRead 0 "user" demoMsgState := by
  have h := C8_markRead_counters_idempotent demoMsgState 0 "user" demoConv
    (Or.inl rfl) (by decide)
  exact ⟨h.1, (h.2.2.2.1 rfl).1, (h.2.2.2.1 rfl).2, h.2.2.2.2.2⟩

/-- C10: the lookup of `getOrCreateConversation` has no status filter, so
when it finds an archived conversation for the owner (under the optional
assignee filter) it returns that archived conversation and changes nothing;
repeating the call any number of times leaves the store unchanged, so if all
of the owner's stored conversations are archived, no active conversation for
that owner ever appears. -/
theorem C10_get_or_create_returns_archived (users : List UserRec)
    (reqUserId adminId : Option ℕ) (uid now n : ℕ) (st : MsgState)
    (c : Conversation)
    (hfind : st.convs.find? (convQuery uid adminId) = some c)
    (harch : c.status = ConvStatus.archived) :
    getOrCreateConversation users (some uid) reqUserId adminId now st =
      (MResp.okConv c, st) ∧
    iterGetOrCreate users (some uid) reqUserId adminId now n st = st ∧
    ((∀ d ∈ st.convs, d.userId = uid → d.status = ConvStatus.archived) →
      ∀ d ∈ (iterGetOrCreate users (some uid) reqUserId adminId now n st).convs,
        d.userId = uid → d.status = ConvStatus.archived) := by
  have h1 : getOrCreateConversation users (some uid) reqUserId adminId now st =
      (MResp.okConv c, st) := by
    unfold getOrCreateConversation
    simp only [hfind]
  have h2 : ∀ m, iterGetOrCreate users (some uid) reqUserId adminId now m st = st := by
    intro m
    induction m with
    | zero => rfl
    | succ k ih =>
      unfold iterGetOrCreate
      simp only [h1]
      exact ih
  refine ⟨h1, h2 n, ?_⟩
  intro hall d hd
  rw [h2 n] at hd
  exact hall d hd

/-- Witness for C10: after `alice` opens a conversation and it is archived,
a repeated get-or-create returns the archived conversation unchanged and
three repetitions leave the store exactly as it was. -/
theorem C10_get_or_create_returns_archived_witness :
    getOrCreateConversation demoUsers (some 1) none none 9 convAfterArchive =
      (MResp.okConv archivedConv, convAfterArchive) ∧
    iterGetOrCreate demoUsers (some 1) none none 9 3 convAfterArchive =
      convAfterArchive := by
  have h := C10_get_or_create_returns_archived demoUsers none none 1 9 3
    convAfterArchive archivedConv (by decide) (by decide)
  exact ⟨h.1, h.2.1⟩

/-- Counterexample to C2 as stated: the schema declares only non-unique
indexes on the conversation collection (so the store does not enforce a
uniqueness constraint on owner + active status), and two get-or-create
calls for the same new owner — interleaved at the lookup/create boundary the
code leaves open, both lookups missing — leave TWO conversation records for
that owner, not exactly one. -/
theorem C2_counterexample :
    (∀ i ∈ conversationIndexes, i.unique = false) ∧
    msgState0.convs.find? (convQuery 1 none) = none ∧
    ((raceTwoCreates demoUsers 1 5 6 msgState0).2.convs.filter
        (fun c => c.userId == 1)).length = 2 := by
  refine ⟨by decide, by decide, by decide⟩

/-- C2 amended: `getOrCreateConversation` deduplicates only through its
lookup-before-create — when the lookup hits, the existing record is returned
and nothing is written, so sequential repeats yield one record — but every
declared conversation index is non-unique and the create path has no
uniqueness-violation handler, so two calls racing past the lookup both
create: each receives a (distinct) conversation without error and the owner
ends with two more records. -/
theorem C2_amended_lookup_dedup_only (users : List UserRec) (uid : ℕ)
    (reqUserId : Option ℕ) (now now₁ now₂ : ℕ) (st : MsgState) (user : UserRec)
    (hmiss : st.convs.find? (convQuery uid none) = none)
    (huser : users.find? (fun u => u.id == uid) = some user) :
    (∀ i ∈ conversationIndexes, i.unique = false) ∧
    (∀ st' : MsgState, ∀ c, st'.convs.find? (convQuery uid none) = some c →
      getOrCreateConversation users (some uid) reqUserId none now st' =
        (MResp.okConv c, st')) ∧
    (∃ c₁ c₂, (raceTwoCreates users uid now₁ now₂ st).1.1 = MResp.okConv c₁ ∧
      (raceTwoCreates users uid now₁ now₂ st).1.2 = MResp.okConv c₂) ∧
    ((raceTwoCreates users uid now₁ now₂ st).2.convs.filter
        (fun c => c.userId == uid)).length =
      (st.convs.filter (fun c => c.userId == uid)).length + 2 := by
  refine ⟨by decide, ?_, ?_, ?_⟩
  · intro st' c hfind
    unfold getOrCreateConversation
    simp only [hfind]
  · unfold raceTwoCreates getOrCreateCreate
    rw [huser]
    simp only [getOrCreateFinish]
    exact ⟨_, _, rfl, rfl⟩
  · unfold raceTwoCreates getOrCreateCreate
    rw [huser]
    simp only [getOrCreateFinish]
    simp [List.filter_append]

/-- Witness for C2 (amended) at concrete inputs: from the empty store, the
raced pair of calls for owner 1 leaves two conversation records where the
claim as written promised exactly one. -/
theorem C2_amended_lookup_dedup_only_witness :
    ((raceTwoCreates demoUsers 1 5 6 msgState0).2.convs.filter
        (fun c => c.userId == 1)).length =
      (msgState0.convs.filter (fun c => c.userId == 1)).length + 2 :=
  (C2_amended_lookup_dedup_only demoUsers 1 none 7 5 6 msgState0
    ⟨1, "alice", "Alice Smith"⟩ (by decide) (by decide)).2.2.2

/-- C7: a join request for identity B's username room or id room over a
connection authenticated as A with a non-operator token leaves the joined
rooms unchanged (the handler has no callback and emits nothing back, so the
drop is silent), while the same join over an operator token adds the room;
the admin broadcast room cannot be gained with a non-operator token by
either handler; and `join-admin` lets an operator join only their own
personal operator room (together with the broadcast room), acknowledging
failure otherwise. -/
theorem C7_room_join_authorization (s : SocketSt) (roomId adminId : String) :
    (s.tokenType ≠ "admin" → jsStartsWith roomId "user-" = true →
      s.username ≠ jsSubstrFrom roomId 5 → joinHandler s roomId = s) ∧
    (s.tokenType ≠ "admin" → jsStartsWith roomId "user-" = false →
      s.userId ≠ roomId → joinHandler s roomId = s) ∧
    (s.tokenType = "admin" →
      joinHandler s roomId = { s with rooms := s.rooms ++ [roomId] }) ∧
    (s.tokenType ≠ "admin" → s.userId ≠ "admin-room" →
      joinHandler s "admin-room" = s) ∧
    (s.tokenType ≠ "admin" → joinAdminHandler s adminId =
      (s, .failure "Unauthorized: Admin access required")) ∧
    (s.tokenType = "admin" → s.userId ≠ adminId → joinAdminHandler s adminId =
      (s, .failure "Unauthorized: Cannot join another admin\u0027s room")) ∧
    (s.tokenType = "admin" → s.userId = adminId → joinAdminHandler s adminId =
      ({ s with rooms := s.rooms ++ ["admin-room", adminId] },
       .success "Joined admin room successfully")) := by
  refine ⟨?_, ?_, ?_, ?_, ?_, ?_, ?_⟩
  · intro ht hst hname
    unfold joinHandler
    rw [hst]
    simp [hname, ht]
  · intro ht hst hid
    unfold joinHandler
    rw [hst]
    simp [hid, ht]
  · intro ht
    unfold joinHandler
    split
    · rw [if_neg (by simp [ht])]
    · rw [if_neg (by simp [ht])]
  · intro ht hid
    unfold joinHandler
    rw [show jsStartsWith "admin-room" "user-" = false by decide]
    simp [hid, ht]
  · intro ht
    unfold joinAdminHandler
    rw [if_pos (by simp [ht])]
  · intro ht hid
    unfold joinAdminHandler
    rw [if_neg (by simp [ht]), if_pos (by simp [hid])]
  · intro ht hid
    unfold joinAdminHandler
    rw [if_neg (by simp [ht]), if_neg (by simp [hid])]

/-- Witness for C7: `alice` (non-operator) cannot join `user-bob` (state
unchanged, nothing acknowledged), an operator can; `join-admin` rejects a
non-operator and a foreign admin id, and admits the operator to
`admin-room` plus their own personal room. -/
theorem C7_room_join_authorization_witness :
    joinHandler ⟨"1", "alice", "user", []⟩ "user-bob" =
      ⟨"1", "alice", "user", []⟩ ∧
    joinHandler ⟨"9", "op", "admin", []⟩ "user-bob" =
      ⟨"9", "op", "admin", ["user-bob"]⟩ ∧
    joinHandler ⟨"1", "alice", "user", []⟩ "admin-room" =
      ⟨"1", "alice", "user", []⟩ ∧
    joinAdminHandler ⟨"1", "alice", "user", []⟩ "9" =
      (⟨"1", "alice", "user", []⟩,
       .failure "Unauthorized: Admin access required") ∧
    joinAdminHandler ⟨"9", "op", "admin", []⟩ "8" =
      (⟨"9", "op", "admin", []⟩,
       .failure "Unauthorized: Cannot join another admin\u0027s room") ∧
    joinAdminHandler ⟨"9", "op", "admin", []⟩ "9" =
      (⟨"9", "op", "admin", ["admin-room", "9"]⟩,
       .success "Joined admin room successfully") := by
  refine ⟨?_, ?_, ?_, ?_, ?_, ?_⟩
  · exact (C7_room_join_authorization ⟨"1", "alice", "user", []⟩ "user-bob" "9").1
      (by decide) (by decide) (by decide)
  · exact (C7_room_join_authorization ⟨"9", "op", "admin", []⟩ "user-bob" "9").2.2.1
      rfl
  · exact (C7_room_join_authorization ⟨"1", "alice", "user", []⟩ "x" "9").2.2.2.1
      (by decide) (by decide)
  · exact (C7_room_join_authorization ⟨"1", "alice", "user", []⟩ "x" "9").2.2.2.2.1
      (by decide)
  · exact (C7_room_join_authorization ⟨"9", "op", "admin", []⟩ "x" "8").2.2.2.2.2.1
      rfl (by decide)
  · exact (C7_room_join_authorization ⟨"9", "op", "admin", []⟩ "x" "9").2.2.2.2.2.2
      rfl rfl
